import Mathlib

/-!
Verification development for the `postgresql-query-builder` repository.

The definitions below are a shallow embedding of the TypeScript source
(`src/postgres/index.ts`, the current implementation): the `Postgres.query`
raw entry point and the `TableQuery` fluent builder.  JavaScript dynamic
values are modelled by the inductive `JSVal`; JavaScript numbers that flow
into `limit`/`page` are modelled by `JSNum` (an integer or `NaN`), so that
the source's `Number.isNaN` guards and truthiness tests are representable.
Stateful methods become functions `TableQuery → TableQuery`; methods that
can `throw` return `Except String _`, and terminal operations return the
SQL text they would send to the driver instead of performing I/O.
-/

/-- Model of a JavaScript dynamic value as it flows through the builder:
strings, (integer) numbers, booleans, `null`, `undefined`, arrays and plain
objects (an object is an ordered key/value list, mirroring `Object.keys`
enumeration order). -/
inductive JSVal where
  | str (s : String)
  | num (n : Int)
  | bool (b : Bool)
  | null
  | undefined
  | arr (elems : List JSVal)
  | obj (fields : List (String × JSVal))

/-- Model of a JavaScript number stored in `limitValue`/`pageValue`: an
integer or `NaN` (floats other than `NaN` are modelled by their integral
values; the claims only involve integral limits and pages). -/
inductive JSNum where
  | int (n : Int)
  | nan

/-- JavaScript `typeof` on a `JSVal`.  Note `typeof null === 'object'` and
arrays are also `'object'`. -/
def jsTypeof : JSVal → String
  | .str _ => "string"
  | .num _ => "number"
  | .bool _ => "boolean"
  | .null => "object"
  | .undefined => "undefined"
  | .arr _ => "object"
  | .obj _ => "object"

/-- JavaScript `Array.isArray`. -/
def isJsArray : JSVal → Bool
  | .arr _ => true
  | _ => false

/-- Whether the value is the JavaScript `null` literal. -/
def isJsNull : JSVal → Bool
  | .null => true
  | _ => false

/-- Whether the value is the JavaScript `undefined` literal. -/
def isJsUndefined : JSVal → Bool
  | .undefined => true
  | _ => false

mutual
/-- JavaScript string coercion of a value, as performed by template-literal
interpolation: numbers and booleans print canonically, `null`/`undefined`
print their names, arrays join their elements with `,`, and plain objects
print `[object Object]`. -/
def jsToString : JSVal → String
  | .str s => s
  | .num n => toString n
  | .bool b => if b then "true" else "false"
  | .null => "null"
  | .undefined => "undefined"
  | .arr elems => String.intercalate "," (jsToStringList elems)
  | .obj _ => "[object Object]"

/-- Pointwise string coercion of a list of values (helper for array
coercion). -/
def jsToStringList : List JSVal → List String
  | [] => []
  | v :: vs => jsToString v :: jsToStringList vs
end

/-- Literal formatting used throughout the builder:
`typeof value === 'string' ? `'[value]'` : value` — strings are wrapped in
single quotes (no escaping), everything else is interpolated. -/
def fmtValue : JSVal → String
  | .str s => "\x27" ++ s ++ "\x27"
  | v => jsToString v

/-- Indexing used by the source's array destructuring `[value1, value2]` on
`cond.value`: out-of-range positions give `undefined`.  (Destructuring a
non-iterable would throw a `TypeError` in JavaScript; the builder only
stores arrays in `BETWEEN` nodes, so the non-array branch is totalised to
`undefined`.) -/
def jsIdx (v : JSVal) (i : Nat) : JSVal :=
  match v with
  | .arr elems => elems.getD i .undefined
  | _ => .undefined

/-- Elements of an array value, used by the source's `cond.value.map` in the
`IN` branch.  (Calling `.map` on a non-array would throw in JavaScript; the
builder only stores non-empty arrays in `IN` nodes, so the non-array branch
is totalised to the empty list.) -/
def jsElems : JSVal → List JSVal
  | .arr elems => elems
  | _ => []

/-- One node of the WHERE tree, mirroring the `Condition` interface of
`src/@types/Field.ts`: optional `column`/`operator`/`value` for leaf
predicates, a pre-rendered `query` string for group nodes, the combinator
`type` (`"AND"`/`"OR"`) and the `isGroup` discriminator.  Absent optional
fields are represented by `""`/`JSVal.undefined`. -/
structure Condition where
  column : String
  operator : String
  value : JSVal
  query : String
  type : String
  isGroup : Bool

/-- Leaf condition as pushed by `where`/`orWhere`/`whereBetween`/`whereIn`/
`whereNull`/`whereNotNull` (no `query` field). -/
def Condition.mkLeaf (column operator : String) (value : JSVal) (ty : String) : Condition :=
  ⟨column, operator, value, "", ty, false⟩

/-- Group condition as pushed by `whereGroup` (no `column`/`operator`/
`value` fields). -/
def Condition.mkGroup (q ty : String) : Condition :=
  ⟨"", "", .undefined, q, ty, true⟩

/-- One `ORDER BY` entry, mirroring the `OrderBy` interface. -/
structure OrderBy where
  column : String
  direction : String

/-- The mutable state of a `TableQuery` builder (the class's fields).  The
`conection` pool is omitted: execution is modelled by returning the SQL
text instead of performing I/O. -/
structure TableQuery where
  tableName : String
  fields : List String
  nextType : String
  joins : List String
  query : String
  conditions : List Condition
  _distinct : Bool
  _orderBy : List OrderBy
  _groupBy : List String
  limitValue : Option JSNum
  pageValue : Option JSNum

/-- The `TableQuery` constructor. -/
def TableQuery.init (tableName : String) : TableQuery where
  tableName := tableName
  fields := []
  nextType := "AND"
  joins := []
  query := "SELECT * FROM \"" ++ tableName ++ "\""
  conditions := []
  _distinct := false
  _orderBy := []
  _groupBy := []
  limitValue := none
  pageValue := none

/-- The `conditionStr` computation inside `buildConditions` for a leaf node
(the branch taken when `cond.isGroup` is false). -/
def renderCondition (cond : Condition) : String :=
  if cond.operator == "BETWEEN" then
    let value1 := jsIdx cond.value 0
    let value2 := jsIdx cond.value 1
    cond.column ++ " BETWEEN " ++ fmtValue value1 ++ " AND " ++ fmtValue value2
  else if cond.operator == "IN" then
    cond.column ++ " IN (" ++ String.intercalate ", " ((jsElems cond.value).map fmtValue) ++ ")"
  else if cond.operator == "IS NULL" then
    cond.column ++ " IS NULL"
  else if cond.operator == "IS NOT NULL" then
    cond.column ++ " IS NOT NULL"
  else
    cond.column ++ " " ++ cond.operator ++ " " ++ fmtValue cond.value

/-- Rendering of one node without its combinator prefix: group nodes render
as their parenthesised pre-rendered text, leaves via `renderCondition`. -/
def condNodeRender (cond : Condition) : String :=
  if cond.isGroup then "(" ++ cond.query ++ ")" else renderCondition cond

/-- The body of `buildConditions` over a condition list: map every node to
`prefix ++ body` where the prefix is empty for index 0 and
`" <type> "` otherwise, then concatenate (`.join('')`). -/
def condListRender (conds : List Condition) : String :=
  String.join (conds.mapIdx fun index cond =>
    (if index == 0 then "" else " " ++ cond.type ++ " ") ++ condNodeRender cond)

/-- `TableQuery.buildConditions` applied to the builder's condition list. -/
def TableQuery.buildConditions (b : TableQuery) : String :=
  condListRender b.conditions

/-- `TableQuery.select`: when fields are given, rebuild the base query from
the field list, preserving the `_distinct` flag. -/
def TableQuery.select (b : TableQuery) (fields : List String) : TableQuery :=
  if fields.length > 0 then
    { b with query := "SELECT " ++ (if b._distinct then "DISTINCT " else "")
        ++ String.intercalate ", " fields ++ " FROM \"" ++ b.tableName ++ "\"" }
  else b

/-- `TableQuery.where`: default the operator to `"="` when `undefined`,
push a leaf tagged with the pending combinator, reset the pending
combinator to `"AND"`.  (`where` is a Lean keyword, hence the escaped
name.) -/
def TableQuery.«where» (b : TableQuery) (column : String) (operator : Option String)
    (value : JSVal) : TableQuery :=
  let op := operator.getD "="
  { b with conditions := b.conditions ++ [Condition.mkLeaf column op value b.nextType]
           nextType := "AND" }

/-- `TableQuery.orWhere`: default the operator, push a leaf tagged `"OR"`;
the pending combinator `nextType` is left untouched. -/
def TableQuery.orWhere (b : TableQuery) (column : String) (operator : Option String)
    (value : JSVal) : TableQuery :=
  let op := operator.getD "="
  { b with conditions := b.conditions ++ [Condition.mkLeaf column op value "OR"] }

/-- `TableQuery.whereGroup`: run the callback on a fresh connection-less
builder for the same table, render its conditions, and push the rendered
text as a single group node tagged with the pending combinator; reset the
pending combinator. -/
def TableQuery.whereGroup (b : TableQuery) (callback : TableQuery → TableQuery) : TableQuery :=
  let groupQuery := TableQuery.init b.tableName
  let groupConditions := (callback groupQuery).buildConditions
  { b with conditions := b.conditions ++ [Condition.mkGroup groupConditions b.nextType]
           nextType := "AND" }

/-- `TableQuery.or`: set the pending combinator to `"OR"`. -/
def TableQuery.or (b : TableQuery) : TableQuery :=
  { b with nextType := "OR" }

/-- `TableQuery.and`: set the pending combinator to `"AND"`. -/
def TableQuery.and (b : TableQuery) : TableQuery :=
  { b with nextType := "AND" }

/-- `TableQuery.whereBetween`: the source destructures the second argument
as `[value1, value2]`; both positions must be defined for a node to be
appended (missing positions destructure to `undefined`), otherwise the call
is a silent no-op. -/
def TableQuery.whereBetween (b : TableQuery) (column : String) (values : List JSVal) :
    TableQuery :=
  let value1 := values.getD 0 .undefined
  let value2 := values.getD 1 .undefined
  if !isJsUndefined value1 && !isJsUndefined value2 then
    { b with conditions := b.conditions
        ++ [Condition.mkLeaf column "BETWEEN" (.arr [value1, value2]) b.nextType]
             nextType := "AND" }
  else b

/-- `TableQuery.whereIn`: appends only when given a non-empty array,
otherwise a silent no-op. -/
def TableQuery.whereIn (b : TableQuery) (column : String) (values : JSVal) : TableQuery :=
  if isJsArray values && (jsElems values).length > 0 then
    { b with conditions := b.conditions ++ [Condition.mkLeaf column "IN" values b.nextType]
             nextType := "AND" }
  else b

/-- `TableQuery.whereNull`. -/
def TableQuery.whereNull (b : TableQuery) (column : String) : TableQuery :=
  { b with conditions := b.conditions ++ [Condition.mkLeaf column "IS NULL" .undefined b.nextType]
           nextType := "AND" }

/-- `TableQuery.whereNotNull`. -/
def TableQuery.whereNotNull (b : TableQuery) (column : String) : TableQuery :=
  { b with conditions := b.conditions ++ [Condition.mkLeaf column "IS NOT NULL" .undefined b.nextType]
           nextType := "AND" }

/-- `TableQuery.limit`: store the raw value. -/
def TableQuery.limit (b : TableQuery) (number : JSNum) : TableQuery :=
  { b with limitValue := some number }

/-- `TableQuery.page`: store the raw value. -/
def TableQuery.page (b : TableQuery) (number : JSNum) : TableQuery :=
  { b with pageValue := some number }

/-- `TableQuery.groupBy`. -/
def TableQuery.groupBy (b : TableQuery) (column : String) : TableQuery :=
  { b with _groupBy := b._groupBy ++ [column] }

/-- String-prefix test (the semantics of JavaScript `startsWith` and of an
anchored `/^…/` regex), expressed on the character list so that it is
kernel-computable. -/
def strStartsWith (s pre : String) : Bool :=
  pre.data.isPrefixOf s.data

/-- Dropping a character prefix (the remainder after an anchored regex
match), expressed on the character list so that it is kernel-computable. -/
def strDrop (s : String) (n : Nat) : String :=
  String.mk (s.data.drop n)

/-- The regex rewrite `query.replace(/^SELECT /, 'SELECT DISTINCT ')`:
replace a leading `"SELECT "` (7 characters) by `"SELECT DISTINCT "`,
otherwise leave the string unchanged. -/
def selectDistinctRewrite (q : String) : String :=
  if strStartsWith q "SELECT " then "SELECT DISTINCT " ++ strDrop q 7 else q

/-- `TableQuery.distinct`: set the flag and rewrite the current base query
text. -/
def TableQuery.distinct (b : TableQuery) : TableQuery :=
  { b with _distinct := true, query := selectDistinctRewrite b.query }

/-- `TableQuery.count`: replace the base query by a COUNT projection. -/
def TableQuery.count (b : TableQuery) (column : String) : TableQuery :=
  { b with query := "SELECT COUNT(" ++ column ++ ") AS count FROM \"" ++ b.tableName ++ "\"" }

/-- `TableQuery.sum`. -/
def TableQuery.sum (b : TableQuery) (column : String) : TableQuery :=
  { b with query := "SELECT SUM(" ++ column ++ ") AS sum FROM \"" ++ b.tableName ++ "\"" }

/-- `TableQuery.avg`. -/
def TableQuery.avg (b : TableQuery) (column : String) : TableQuery :=
  { b with query := "SELECT AVG(" ++ column ++ ") AS avg FROM \"" ++ b.tableName ++ "\"" }

/-- `TableQuery.max`. -/
def TableQuery.max (b : TableQuery) (column : String) : TableQuery :=
  { b with query := "SELECT MAX(" ++ column ++ ") AS max FROM \"" ++ b.tableName ++ "\"" }

/-- `TableQuery.min`. -/
def TableQuery.min (b : TableQuery) (column : String) : TableQuery :=
  { b with query := "SELECT MIN(" ++ column ++ ") AS min FROM \"" ++ b.tableName ++ "\"" }

/-- `TableQuery.orderBy`: validate the direction (case-insensitively) and
append the upper-cased spec, or throw. -/
def TableQuery.orderBy (b : TableQuery) (column : String) (direction : String) :
    Except String TableQuery :=
  if ["ASC", "DESC"].contains direction.toUpper then
    .ok { b with _orderBy := b._orderBy ++ [⟨column, direction.toUpper⟩] }
  else
    .error ("Invalid direction: " ++ direction ++ ". Use \x27ASC\x27 or \x27DESC\x27.")

/-- The JOIN fragment appended by `buildQuery`:
`query += ` [joins joined by a space]`` when there are joins. -/
def joinsPart (b : TableQuery) : String :=
  if b.joins.length > 0 then " " ++ String.intercalate " " b.joins else ""

/-- The WHERE fragment appended by `buildQuery`: present iff the rendered
condition string is non-empty. -/
def wherePart (b : TableQuery) : String :=
  let whereClauses := b.buildConditions
  if whereClauses.length > 0 then " WHERE " ++ whereClauses else ""

/-- The GROUP BY fragment appended by `buildQuery`. -/
def groupByPart (b : TableQuery) : String :=
  if b._groupBy.length > 0 then " GROUP BY " ++ String.intercalate ", " b._groupBy else ""

/-- The LIMIT fragment appended by `buildQuery`: emitted iff `limitValue`
is neither `null`/`undefined` nor `NaN`. -/
def limitPart (b : TableQuery) : String :=
  match b.limitValue with
  | some (.int n) => " LIMIT " ++ toString n
  | _ => ""

/-- The OFFSET fragment appended by `buildQuery`: the guard is
`this.limitValue && this.pageValue !== null && this.pageValue !== undefined
&& !Number.isNaN(this.pageValue)`, so the limit must be *truthy* (a number
other than `0` and `NaN`) and the page a non-`NaN` number; the offset is
`(page - 1) * limit`. -/
def offsetPart (b : TableQuery) : String :=
  match b.limitValue, b.pageValue with
  | some (.int n), some (.int p) =>
      if n ≠ 0 then " OFFSET " ++ toString ((p - 1) * n) else ""
  | _, _ => ""

/-- The text-prefix test deciding whether the base clause is an aggregate
projection (`SELECT COUNT`/`SUM`/`AVG`/`MAX`/`MIN`). -/
def isAggregateQuery (q : String) : Bool :=
  strStartsWith q "SELECT COUNT" || strStartsWith q "SELECT SUM" || strStartsWith q "SELECT AVG"
    || strStartsWith q "SELECT MAX" || strStartsWith q "SELECT MIN"

/-- The ORDER BY fragment appended by `buildQuery`: emitted iff specs were
accumulated and the base clause does not pass the aggregate prefix test;
specs render as `column direction` joined by `, ` in insertion order. -/
def orderByPart (b : TableQuery) : String :=
  if b._orderBy.length > 0 && !isAggregateQuery b.query then
    " ORDER BY " ++ String.intercalate ", " (b._orderBy.map fun order =>
      order.column ++ " " ++ order.direction)
  else ""

/-- `TableQuery.buildQuery`: start from the base query text (or `""` when
`includeSelect` is false) and append the JOIN, WHERE, GROUP BY, LIMIT,
OFFSET and ORDER BY fragments in that order. -/
def TableQuery.buildQuery (b : TableQuery) (includeSelect : Bool) : String :=
  (if includeSelect then b.query else "")
    ++ joinsPart b ++ wherePart b ++ groupByPart b
    ++ limitPart b ++ offsetPart b ++ orderByPart b

/-- The `SET` assignment list rendered by `update`:
`"key" = literal` for each own key of the data object, joined by `, `. -/
def updateAssignments (kvs : List (String × JSVal)) : String :=
  String.intercalate ", " (kvs.map fun kv => "\"" ++ kv.1 ++ "\" = " ++ fmtValue kv.2)

/-- `TableQuery.update`: reject non-objects and arrays; require a non-empty
rendered WHERE string; otherwise return the UPDATE statement that would be
executed.  (`JSVal.null` passes the `typeof` check but `Object.keys(null)`
then throws a `TypeError` in JavaScript, modelled by the last branch.)  In
every error case no SQL statement is produced. -/
def TableQuery.update (b : TableQuery) (data : JSVal) : Except String String :=
  if jsTypeof data != "object" || isJsArray data then
    .error "El método update requiere un objeto con pares clave-valor."
  else
    match data with
    | .obj kvs =>
        let updates := updateAssignments kvs
        let whereClauses := b.buildConditions
        if whereClauses.length == 0 then
          .error "Debe especificar al menos una condición WHERE para realizar un update."
        else
          .ok ("UPDATE \"" ++ b.tableName ++ "\" SET " ++ updates
            ++ " WHERE " ++ whereClauses ++ " RETURNING *")
    | _ => .error "Cannot convert undefined or null to object"

/-- `TableQuery.delete`: require a non-empty rendered WHERE string;
otherwise return the DELETE statement that would be executed.  In the error
case no SQL statement is produced. -/
def TableQuery.delete (b : TableQuery) : Except String String :=
  let whereClauses := b.buildConditions
  if whereClauses.length == 0 then
    .error "Debe especificar al menos una condición WHERE para realizar un delete."
  else
    .ok ("DELETE FROM \"" ++ b.tableName ++ "\" WHERE " ++ whereClauses ++ " RETURNING *")

/-- `Object.keys`/`Object.values` enumeration of one row, as used by
`insert`: plain objects enumerate their key/value pairs, arrays enumerate
index keys `"0"`, `"1"`, … with their elements (arrays pass the `insert`
validation since `typeof [] === 'object'`).  Other values cannot reach this
point. -/
def rowEntries : JSVal → List (String × JSVal)
  | .obj kvs => kvs
  | .arr elems => (elems.enum.map fun ie => (toString ie.1, ie.2))
  | _ => []

/-- Literal used in `insert` VALUES lists: `undefined`/`null` become the
`NULL` keyword, strings are single-quoted, everything else interpolated. -/
def insertValueLiteral (v : JSVal) : String :=
  if isJsUndefined v || isJsNull v then "NULL" else fmtValue v

/-- The INSERT statement `insert` builds for one row. -/
def insertRowSql (tableName : String) (row : JSVal) : String :=
  let entries := rowEntries row
  let columns := String.intercalate ", " (entries.map fun kv => "\"" ++ kv.1 ++ "\"")
  let placeholders := String.intercalate ", " (entries.map fun kv => insertValueLiteral kv.2)
  "INSERT INTO \"" ++ tableName ++ "\" (" ++ columns ++ ") VALUES (" ++ placeholders
    ++ ") RETURNING *"

/-- The element validation in `insert`:
`typeof item === 'object' && item !== null`. -/
def validInsertItem (item : JSVal) : Bool :=
  jsTypeof item == "object" && !isJsNull item

/-- `TableQuery.insert`: reject a non-array payload, then reject a payload
containing an invalid element; otherwise return the per-row INSERT
statements that would be executed sequentially.  Both validation errors are
raised before any SQL statement is produced; an empty array passes
validation and yields no statements. -/
def TableQuery.insert (b : TableQuery) (data : JSVal) : Except String (List String) :=
  if !isJsArray data then
    .error "El método insert requiere un array de objetos con pares clave-valor."
  else if !((jsElems data).all validInsertItem) then
    .error "El array debe contener solo objetos válidos."
  else
    .ok ((jsElems data).map (insertRowSql b.tableName))

/-- One result row, as returned by the driver (shape irrelevant to the
claims). -/
def Row : Type := List (String × JSVal)

/-- The driver/pool, abstracted as a function from one SQL command to
either the driver's error text or a row set. -/
def Driver : Type := String → Except String (List Row)

/-- The shape of the `data` field of the raw-query result: a single row
set, a list of row sets, or JavaScript `null`. -/
inductive QueryData where
  | rows (rs : List Row)
  | rowsets (rss : List (List Row))
  | nullData

/-- The structured result of the raw-query entry point. -/
structure QueryResult where
  status : String
  message : String
  data : QueryData

/-- Splitting a character list at every occurrence of a separator
character, keeping empty segments (the semantics of JavaScript
`split(';')` with a single-character separator). -/
def splitCharList (sep : Char) : List Char → List (List Char)
  | [] => [[]]
  | c :: cs =>
      let rest := splitCharList sep cs
      if c = sep then [] :: rest
      else
        match rest with
        | [] => [[c]]
        | r :: rs => (c :: r) :: rs

/-- JavaScript `split` with a single-character separator, expressed on the
character list so that it is kernel-computable. -/
def strSplit (s : String) (sep : Char) : List String :=
  (splitCharList sep s.data).map String.mk

/-- JavaScript `trim` (strip leading and trailing whitespace), expressed on
the character list so that it is kernel-computable. -/
def strTrim (s : String) : String :=
  String.mk (((s.data.dropWhile Char.isWhitespace).reverse.dropWhile Char.isWhitespace).reverse)

/-- JavaScript `s || fallback` on strings: the empty string is the only
falsy string, so it is replaced by the fallback and every other string is
kept. -/
def jsOrElse (s fallback : String) : String :=
  if s = "" then fallback else s

/-- The command split performed by `Postgres.query`:
`sqlQuery.split(';').filter(cmd => cmd.trim().length > 0)`. -/
def sqlCommandsOf (sqlQuery : String) : List String :=
  (strSplit sqlQuery ';').filter fun cmd => (strTrim cmd).length > 0

/-- The sequential execution loop of `Postgres.query`: run each command
(with its `;` restored) in order, collecting row sets; stop at the first
driver error. -/
def runCommands (pool : Driver) : List String → Except String (List (List Row))
  | [] => .ok []
  | command :: rest =>
      match pool (command ++ ";") with
      | .error e => .error e
      | .ok rows =>
          match runCommands pool rest with
          | .error e => .error e
          | .ok results => .ok (rows :: results)

/-- `Postgres.query` for a string argument (a non-string argument would
throw before the `try` block; the Lean type restricts the input to
strings, matching the claim's scope): split the input into commands,
check the pool, run the commands, and package either a success result
(`data` is the single row set when exactly one command ran, the list of
row sets otherwise) or an error result with `data = null` and the message
computed by the catch block as
`error.message || 'An error occurred while executing the query.'` — the
caught error's text, with the fallback text substituted when that text is
empty.  The missing-pool error is thrown inside the `try` block, so its
message passes through the same `||` (its text is non-empty, so it is
kept).  The function is total: it always returns a structured result. -/
def Postgres.query (pool : Option Driver) (sqlQuery : String) : QueryResult :=
  let sqlCommands := sqlCommandsOf sqlQuery
  match pool with
  | none =>
      ⟨"error",
        jsOrElse "Database connection pool is not available."
          "An error occurred while executing the query.", .nullData⟩
  | some p =>
      match runCommands p sqlCommands with
      | .error e =>
          ⟨"error", jsOrElse e "An error occurred while executing the query.", .nullData⟩
      | .ok results =>
          ⟨"success", "Query executed successfully",
            match results with
            | [single] => .rows single
            | _ => .rowsets results⟩

/-! Helper lemmas about the condition renderer. -/

/-- Concatenating a joined list descends through the head. -/
theorem stringJoin_cons (a : String) (l : List String) :
    String.join (a :: l) = a ++ String.join l := by
  simp [String.join_eq, String.ext_iff]

/-- An index-ignoring `mapIdx` is a plain `map`. -/
theorem mapIdx_constFun {α β : Type} (g : α → β) (l : List α) :
    l.mapIdx (fun _ c => g c) = l.map g := by
  induction l with
  | nil => rfl
  | cons a l ih => simp [List.mapIdx_cons, ih]

/-- Head/tail form of the condition-list renderer: the first node has no
combinator prefix, every subsequent node is prefixed by a single space, its
own combinator, and a single space. -/
theorem condListRender_cons (c : Condition) (cs : List Condition) :
    condListRender (c :: cs) =
      condNodeRender c
        ++ String.join (cs.map fun k => " " ++ k.type ++ " " ++ condNodeRender k) := by
  unfold condListRender
  rw [List.mapIdx_cons, stringJoin_cons]
  have hf : (fun (i : Nat) (cond : Condition) =>
      (if i + 1 == 0 then "" else " " ++ cond.type ++ " ") ++ condNodeRender cond)
      = fun _ cond => " " ++ cond.type ++ " " ++ condNodeRender cond := by
    funext i cond
    simp [String.append_assoc]
  rw [hf, mapIdx_constFun]
  simp

/-- Every node renders to a non-empty string (even an empty group renders
as `()`). -/
theorem condNodeRender_length_pos (cond : Condition) : 0 < (condNodeRender cond).length := by
  have h1 : 0 < ("(" : String).length := by decide
  have h2 : 0 < (" BETWEEN " : String).length := by decide
  have h3 : 0 < (" IN (" : String).length := by decide
  have h4 : 0 < (" IS NULL" : String).length := by decide
  have h5 : 0 < (" IS NOT NULL" : String).length := by decide
  have h6 : 0 < (" " : String).length := by decide
  unfold condNodeRender renderCondition
  split_ifs <;> simp only [String.length_append] <;> omega

/-- A non-empty condition list renders to a non-empty string. -/
theorem condListRender_length_pos (c : Condition) (cs : List Condition) :
    0 < (condListRender (c :: cs)).length := by
  rw [condListRender_cons, String.length_append]
  have := condNodeRender_length_pos c
  omega

/-! Model of call sequences made of `where`/`orWhere`, for the combinator
placement claim. -/

/-- One call in a `where`/`orWhere` chain. -/
inductive WCall where
  | w (column : String) (operator : Option String) (value : JSVal)
  | ow (column : String) (operator : Option String) (value : JSVal)

/-- Apply one call to a builder. -/
def applyCall (b : TableQuery) : WCall → TableQuery
  | .w column operator value => b.«where» column operator value
  | .ow column operator value => b.orWhere column operator value

/-- Apply a call sequence left to right. -/
def applyCalls (b : TableQuery) (calls : List WCall) : TableQuery :=
  calls.foldl applyCall b

/-- The condition node a call appends when the pending combinator is
`"AND"` (the invariant along any pure `where`/`orWhere` chain). -/
def callNode : WCall → Condition
  | .w column operator value => Condition.mkLeaf column (operator.getD "=") value "AND"
  | .ow column operator value => Condition.mkLeaf column (operator.getD "=") value "OR"

/-- The combinator keyword the claim assigns to each call: `AND` for
`where`, `OR` for `orWhere`. -/
def callCombinator : WCall → String
  | .w _ _ _ => "AND"
  | .ow _ _ _ => "OR"

/-- The predicate text of one call (shared with the source renderer; the
claim is about combinator placement, not literal formatting). -/
def callPredicate : WCall → String
  | .w column operator value => renderCondition (Condition.mkLeaf column (operator.getD "=") value "AND")
  | .ow column operator value => renderCondition (Condition.mkLeaf column (operator.getD "=") value "OR")

/-- Rendering described by the specification: the first predicate carries
no combinator keyword; each subsequent predicate is preceded by exactly one
combinator keyword — the call's own AND/OR, surrounded by single spaces —
in call order. -/
def specConditionsRender : List WCall → String
  | [] => ""
  | c :: cs =>
      callPredicate c
        ++ String.join (cs.map fun k => " " ++ callCombinator k ++ " " ++ callPredicate k)

/-- Along a `where`/`orWhere` chain starting from a builder whose pending
combinator is `"AND"`, the pending combinator stays `"AND"` and the
condition list grows by exactly the calls' nodes, in call order. -/
theorem applyCalls_state (calls : List WCall) (b : TableQuery) (h : b.nextType = "AND") :
    (applyCalls b calls).conditions = b.conditions ++ calls.map callNode
      ∧ (applyCalls b calls).nextType = "AND" := by
  induction calls generalizing b with
  | nil => simpa [applyCalls] using h
  | cons c cs ih =>
    have hstep : (applyCall b c).nextType = "AND"
        ∧ (applyCall b c).conditions = b.conditions ++ [callNode c] := by
      cases c <;> simp [applyCall, TableQuery.«where», TableQuery.orWhere, callNode, h]
    obtain ⟨hn, hc⟩ := hstep
    obtain ⟨ih1, ih2⟩ := ih (applyCall b c) hn
    refine ⟨?_, ih2⟩
    show (applyCalls (applyCall b c) cs).conditions = _
    rw [ih1, hc]
    simp

/-- C1: for every sequence of `where`/`orWhere` calls on a fresh builder,
`buildConditions()` renders the predicates in call order, with no
combinator keyword before the first rendered predicate and exactly one
combinator keyword (the node's own AND/OR, surrounded by single spaces)
before each subsequent predicate. -/
theorem buildConditions_combinator_placement (t : String) (calls : List WCall) :
    (applyCalls (TableQuery.init t) calls).buildConditions = specConditionsRender calls := by
  obtain ⟨hc, -⟩ := applyCalls_state calls (TableQuery.init t) rfl
  unfold TableQuery.buildConditions
  rw [hc]
  show condListRender ([] ++ calls.map callNode) = _
  rw [List.nil_append]
  cases calls with
  | nil => rfl
  | cons c cs =>
    rw [List.map_cons, condListRender_cons, specConditionsRender]
    have hhead : condNodeRender (callNode c) = callPredicate c := by
      cases c <;> rfl
    have htail : ((cs.map callNode).map fun k => " " ++ k.type ++ " " ++ condNodeRender k)
        = cs.map fun k => " " ++ callCombinator k ++ " " ++ callPredicate k := by
      rw [List.map_map]
      apply List.map_congr_left
      intro k _
      cases k <;> rfl
    rw [hhead, htail]

/-- A builder with a non-empty condition list passes the empty-WHERE guard
of `update`/`delete`. -/
theorem buildConditions_ok_of_ne_nil (b : TableQuery) (h : b.conditions ≠ []) :
    ((b.buildConditions).length == 0) = false := by
  obtain ⟨c, cs, hcc⟩ := List.exists_cons_of_ne_nil h
  unfold TableQuery.buildConditions
  rw [hcc]
  have := condListRender_length_pos c cs
  simp only [beq_eq_false_iff_ne, ne_eq]
  omega

/-- C2: `update(data)` and `delete()` raise the missing-WHERE error exactly
when the condition list is empty (equivalently, when the rendered condition
string is empty), and return the SQL statement to execute otherwise; the
error branches produce no SQL statement. -/
theorem update_delete_require_where (b : TableQuery) (kvs : List (String × JSVal)) :
    (b.conditions = [] →
        b.update (.obj kvs)
            = .error "Debe especificar al menos una condición WHERE para realizar un update."
        ∧ b.delete
            = .error "Debe especificar al menos una condición WHERE para realizar un delete.")
  ∧ (b.conditions ≠ [] →
        (∃ q, b.update (.obj kvs) = .ok q) ∧ (∃ q, b.delete = .ok q)) := by
  constructor
  · intro h
    unfold TableQuery.update TableQuery.delete TableQuery.buildConditions
    rw [h]
    simp [jsTypeof, isJsArray, condListRender, String.join]
  · intro h
    have hne := buildConditions_ok_of_ne_nil b h
    unfold TableQuery.buildConditions at hne
    unfold TableQuery.update TableQuery.delete TableQuery.buildConditions
    simp [jsTypeof, isJsArray, hne]

/-- Witness for C2 at a concrete builder: a fresh builder raises on both
`update` and `delete`, and one `where` call later both succeed. -/
theorem update_delete_require_where_witness :
    ((TableQuery.init "users").update (.obj [("age", .num 1)])
        = .error "Debe especificar al menos una condición WHERE para realizar un update.")
  ∧ ((TableQuery.init "users").delete
        = .error "Debe especificar al menos una condición WHERE para realizar un delete.")
  ∧ (∃ q, (((TableQuery.init "users").«where» "id" (some "=") (.num 1)).update
        (.obj [("age", .num 1)])) = .ok q)
  ∧ (∃ q, (((TableQuery.init "users").«where» "id" (some "=") (.num 1)).delete) = .ok q) := by
  refine ⟨((update_delete_require_where (TableQuery.init "users") [("age", .num 1)]).1 rfl).1,
    ((update_delete_require_where (TableQuery.init "users") [("age", .num 1)]).1 rfl).2,
    ((update_delete_require_where _ [("age", .num 1)]).2 ?_).1,
    ((update_delete_require_where _ [("age", .num 1)]).2 ?_).2⟩ <;>
    simp [TableQuery.«where», TableQuery.init]

/-- C10: `whereGroup(fn)` always appends exactly one group node, even when
the callback adds no conditions to the nested builder; in that case the
group renders as `()`, and since the condition list is then non-empty, a
subsequent `update` or `delete` does not raise the missing-WHERE error. -/
theorem whereGroup_always_appends (b : TableQuery) (callback : TableQuery → TableQuery) :
    (b.whereGroup callback).conditions
        = b.conditions
          ++ [Condition.mkGroup ((callback (TableQuery.init b.tableName)).buildConditions)
                b.nextType]
  ∧ ((callback (TableQuery.init b.tableName)).conditions = [] →
        condNodeRender
            (Condition.mkGroup ((callback (TableQuery.init b.tableName)).buildConditions)
              b.nextType) = "()")
  ∧ (b.conditions = [] → (callback (TableQuery.init b.tableName)).conditions = [] →
        (b.whereGroup callback).buildConditions = "()")
  ∧ (∃ q, (b.whereGroup callback).delete = .ok q)
  ∧ (∀ kvs : List (String × JSVal), ∃ q, (b.whereGroup callback).update (.obj kvs) = .ok q) := by
  have hne : (b.whereGroup callback).conditions ≠ [] := by
    simp [TableQuery.whereGroup]
  have hguard := buildConditions_ok_of_ne_nil _ hne
  refine ⟨rfl, ?_, ?_, ?_, ?_⟩
  · intro h
    unfold TableQuery.buildConditions
    rw [h]
    rfl
  · intro hb h
    unfold TableQuery.buildConditions TableQuery.whereGroup
    simp only [TableQuery.buildConditions, h, hb]
    rfl
  · unfold TableQuery.delete
    simp [hguard]
  · intro kvs
    unfold TableQuery.update
    simp [jsTypeof, isJsArray, hguard]

/-- Witness for C10 at the identity callback: the group node is appended,
renders as `()`, and `delete` succeeds. -/
theorem whereGroup_always_appends_witness :
    ((TableQuery.init "t").whereGroup (fun g => g)).conditions
        = [Condition.mkGroup "" "AND"]
  ∧ ((TableQuery.init "t").whereGroup (fun g => g)).buildConditions = "()"
  ∧ (∃ q, ((TableQuery.init "t").whereGroup (fun g => g)).delete = .ok q) := by
  refine ⟨?_, (whereGroup_always_appends (TableQuery.init "t") (fun g => g)).2.2.1 rfl rfl,
    (whereGroup_always_appends (TableQuery.init "t") (fun g => g)).2.2.2.1⟩
  have h1 := (whereGroup_always_appends (TableQuery.init "t") (fun g => g)).1
  simpa using h1

/-- C5 counterexample: after `or()`, `orWhere` leaves the pending
combinator at `"OR"` (the claim says it is reset to `"AND"`), whereas
`or()` followed by `where` resets it to `"AND"` — so `orWhere` is not
equivalent to `or(); where(...)`. -/
theorem orWhere_pending_or_counterexample :
    (((TableQuery.init "t").or).orWhere "a" (some "=") (.num 1)).nextType = "OR"
  ∧ ((((TableQuery.init "t").or).or).«where» "a" (some "=") (.num 1)).nextType = "AND" :=
  ⟨rfl, rfl⟩

/-- C5 amended: `or()` sets the pending combinator to OR and the next
`where` consumes it (appending an OR-tagged condition) and resets it to
AND; `orWhere` always appends an OR-tagged condition but neither reads nor
resets the pending combinator; consequently `orWhere` coincides with
`or(); where(...)` exactly when the pending combinator is already AND,
e.g. immediately after any `where` call. -/
theorem or_orWhere_combinator_behavior (b : TableQuery) (column c2 : String)
    (operator o2 : Option String) (value v2 : JSVal) :
    ((b.or).«where» column operator value).conditions
        = b.conditions ++ [Condition.mkLeaf column (operator.getD "=") value "OR"]
  ∧ ((b.or).«where» column operator value).nextType = "AND"
  ∧ (b.orWhere column operator value).conditions
        = b.conditions ++ [Condition.mkLeaf column (operator.getD "=") value "OR"]
  ∧ (b.orWhere column operator value).nextType = b.nextType
  ∧ ((b.«where» c2 o2 v2).orWhere column operator value)
        = (((b.«where» c2 o2 v2).or).«where» column operator value) := by
  refine ⟨rfl, rfl, rfl, rfl, rfl⟩

/-- C7 counterexample: `distinct()` is not idempotent on the base query
text — a second call changes the text again (it inserts another
`DISTINCT`). -/
theorem distinct_twice_not_idempotent :
    ((((TableQuery.init "t").distinct).distinct)).query
      ≠ (((TableQuery.init "t").distinct)).query := by
  decide

/-- C7 amended: `distinct()` sets the flag and rewrites the leading
`SELECT ` of the base query to `SELECT DISTINCT `; a second call prepends
another `DISTINCT` (the anchored rewrite matches again), so the method is
not idempotent on the base text; `distinct().select(['name'])` on table
`t` renders `SELECT DISTINCT name FROM "t"` because `select` rebuilds the
base from the flag. -/
theorem distinct_rewrite_and_select :
    ((TableQuery.init "t").distinct)._distinct = true
  ∧ ((TableQuery.init "t").distinct).query = "SELECT DISTINCT * FROM \"t\""
  ∧ ((((TableQuery.init "t").distinct).distinct)).query
        = "SELECT DISTINCT DISTINCT * FROM \"t\""
  ∧ ((((TableQuery.init "t").distinct).select ["name"])).query
        = "SELECT DISTINCT name FROM \"t\"" := by
  refine ⟨rfl, by decide, by decide, by decide⟩

/-- A string-prefix test survives appending on the right. -/
theorem strStartsWith_append (pre s t : String) (h : strStartsWith s pre = true) :
    strStartsWith (s ++ t) pre = true := by
  unfold strStartsWith at h ⊢
  rw [List.isPrefixOf_iff_prefix] at h ⊢
  exact h.trans (show s.data <+: (s ++ t).data from ⟨t.data, rfl⟩)

/-- C4 counterexample: with `limit(0).page(2)` the rendered query carries
`LIMIT 0` but no OFFSET clause (the OFFSET guard tests the limit value's
JavaScript truthiness and `0` is falsy), contradicting the claim's
unconditional `LIMIT n OFFSET (p-1)*n` rendering. -/
theorem limit_zero_page_no_offset :
    (((TableQuery.init "t").limit (.int 0)).page (.int 2)).buildQuery true
        = "SELECT * FROM \"t\" LIMIT 0"
  ∧ (((TableQuery.init "t").limit (.int 0)).page (.int 2)).buildQuery true
        ≠ "SELECT * FROM \"t\" LIMIT 0 OFFSET 0" :=
  ⟨by decide, by decide⟩

/-- C4 amended: for every builder, `limit(n).page(p)` renders
` LIMIT n OFFSET (p-1)*n` provided `n ≠ 0` (for `n = 0` only `LIMIT 0` is
rendered, the OFFSET being suppressed by the truthiness guard); and with
`limit` never set, `page(p)` alone renders neither a LIMIT nor an OFFSET
fragment. -/
theorem limit_page_offset_rendering (b : TableQuery) (n p : Int) (hn : n ≠ 0) :
    ((b.limit (.int n)).page (.int p)).buildQuery true
        = b.query ++ joinsPart b ++ wherePart b ++ groupByPart b
          ++ (" LIMIT " ++ toString n ++ " OFFSET " ++ toString ((p - 1) * n))
          ++ orderByPart b
  ∧ (b.limitValue = none →
        limitPart (b.page (.int p)) = "" ∧ offsetPart (b.page (.int p)) = ""
        ∧ (b.page (.int p)).buildQuery true
            = b.query ++ joinsPart b ++ wherePart b ++ groupByPart b ++ orderByPart b) := by
  constructor
  · simp only [TableQuery.buildQuery, TableQuery.limit, TableQuery.page, joinsPart, wherePart,
      groupByPart, orderByPart, limitPart, offsetPart, TableQuery.buildConditions]
    simp [hn, String.append_assoc]
  · intro h
    refine ⟨?_, ?_, ?_⟩ <;>
      simp only [TableQuery.buildQuery, TableQuery.page, joinsPart, wherePart,
        groupByPart, orderByPart, limitPart, offsetPart, TableQuery.buildConditions, h] <;>
      simp [String.append_assoc]

/-- Witness for C4 at `limit(5).page(3)` on a fresh builder. -/
theorem limit_page_offset_rendering_witness :
    (5 : Int) ≠ 0
  ∧ ((((TableQuery.init "t").limit (.int 5)).page (.int 3)).buildQuery true
        = (TableQuery.init "t").query ++ joinsPart (TableQuery.init "t")
          ++ wherePart (TableQuery.init "t") ++ groupByPart (TableQuery.init "t")
          ++ (" LIMIT " ++ toString (5 : Int) ++ " OFFSET " ++ toString (((3 : Int) - 1) * 5))
          ++ orderByPart (TableQuery.init "t")) :=
  ⟨by decide, (limit_page_offset_rendering (TableQuery.init "t") 5 3 (by decide)).1⟩

/-- C8: with at least one accumulated ORDER BY spec, the ORDER BY fragment
is empty whenever the base clause passes the aggregate text-prefix test,
and otherwise renders the accumulated specs in insertion order; `buildQuery`
is the concatenation ending in that fragment; and every aggregate setter
(`count`/`sum`/`avg`/`max`/`min`, any column) produces a base clause that
passes the prefix test. -/
theorem orderBy_suppressed_for_aggregates (b : TableQuery) (h : b._orderBy ≠ []) :
    (isAggregateQuery b.query = true → orderByPart b = "")
  ∧ (isAggregateQuery b.query = false →
        orderByPart b = " ORDER BY " ++ String.intercalate ", "
          (b._orderBy.map fun order => order.column ++ " " ++ order.direction))
  ∧ b.buildQuery true
      = b.query ++ joinsPart b ++ wherePart b ++ groupByPart b ++ limitPart b ++ offsetPart b
        ++ orderByPart b
  ∧ (∀ c, isAggregateQuery ((b.count c).query) = true)
  ∧ (∀ c, isAggregateQuery ((b.sum c).query) = true)
  ∧ (∀ c, isAggregateQuery ((b.avg c).query) = true)
  ∧ (∀ c, isAggregateQuery ((b.max c).query) = true)
  ∧ (∀ c, isAggregateQuery ((b.min c).query) = true) := by
  have hlen : 0 < b._orderBy.length := List.length_pos.mpr h
  refine ⟨?_, ?_, rfl, ?_, ?_, ?_, ?_, ?_⟩
  · intro hagg
    simp [orderByPart, hagg]
  · intro hagg
    simp [orderByPart, hagg, hlen]
  · intro c
    have h1 : strStartsWith ("SELECT COUNT(" ++ c ++ ") AS count FROM \"" ++ b.tableName ++ "\"")
        "SELECT COUNT" = true := by
      apply strStartsWith_append
      apply strStartsWith_append
      apply strStartsWith_append
      apply strStartsWith_append
      decide
    simp [isAggregateQuery, TableQuery.count, h1]
  · intro c
    have h1 : strStartsWith ("SELECT SUM(" ++ c ++ ") AS sum FROM \"" ++ b.tableName ++ "\"")
        "SELECT SUM" = true := by
      apply strStartsWith_append
      apply strStartsWith_append
      apply strStartsWith_append
      apply strStartsWith_append
      decide
    simp [isAggregateQuery, TableQuery.sum, h1]
  · intro c
    have h1 : strStartsWith ("SELECT AVG(" ++ c ++ ") AS avg FROM \"" ++ b.tableName ++ "\"")
        "SELECT AVG" = true := by
      apply strStartsWith_append
      apply strStartsWith_append
      apply strStartsWith_append
      apply strStartsWith_append
      decide
    simp [isAggregateQuery, TableQuery.avg, h1]
  · intro c
    have h1 : strStartsWith ("SELECT MAX(" ++ c ++ ") AS max FROM \"" ++ b.tableName ++ "\"")
        "SELECT MAX" = true := by
      apply strStartsWith_append
      apply strStartsWith_append
      apply strStartsWith_append
      apply strStartsWith_append
      decide
    simp [isAggregateQuery, TableQuery.max, h1]
  · intro c
    have h1 : strStartsWith ("SELECT MIN(" ++ c ++ ") AS min FROM \"" ++ b.tableName ++ "\"")
        "SELECT MIN" = true := by
      apply strStartsWith_append
      apply strStartsWith_append
      apply strStartsWith_append
      apply strStartsWith_append
      decide
    simp [isAggregateQuery, TableQuery.min, h1]

/-- Witness for C8: a builder with one ORDER BY spec renders it when the
base clause is the default projection, and renders nothing after
`count('*')` turns the base clause into an aggregate. -/
theorem orderBy_suppressed_for_aggregates_witness :
    orderByPart ({ TableQuery.init "t" with _orderBy := [⟨"name", "ASC"⟩] } : TableQuery)
        = " ORDER BY " ++ String.intercalate ", "
            (([⟨"name", "ASC"⟩] : List OrderBy).map fun order =>
              order.column ++ " " ++ order.direction)
  ∧ orderByPart (({ TableQuery.init "t" with _orderBy := [⟨"name", "ASC"⟩] } : TableQuery).count "*")
        = "" :=
  ⟨(orderBy_suppressed_for_aggregates _ (by simp)).2.1 (by decide),
   (orderBy_suppressed_for_aggregates _ (by simp [TableQuery.count])).1 (by decide)⟩

/-- C9: `whereBetween(col, [a, b])` with both values defined appends one
condition rendering as `col BETWEEN a AND b` and resets the pending
combinator; `whereBetween` with only one defined value, and `whereIn` with
a non-array or an empty array, return the builder unchanged (same condition
list, same pending combinator) and raise no error (the methods are total). -/
theorem whereBetween_whereIn_behavior (b : TableQuery) (column : String) (a1 a2 : JSVal)
    (h1 : isJsUndefined a1 = false) (h2 : isJsUndefined a2 = false) (vs : List JSVal) (v : JSVal) :
    (b.whereBetween column [a1, a2]).conditions
        = b.conditions ++ [Condition.mkLeaf column "BETWEEN" (.arr [a1, a2]) b.nextType]
  ∧ (b.whereBetween column [a1, a2]).nextType = "AND"
  ∧ renderCondition (Condition.mkLeaf column "BETWEEN" (.arr [a1, a2]) b.nextType)
        = column ++ " BETWEEN " ++ fmtValue a1 ++ " AND " ++ fmtValue a2
  ∧ b.whereBetween column [v] = b
  ∧ (isJsUndefined (vs.getD 0 .undefined) = true ∨ isJsUndefined (vs.getD 1 .undefined) = true →
        b.whereBetween column vs = b)
  ∧ (isJsArray v = false → b.whereIn column v = b)
  ∧ b.whereIn column (.arr []) = b := by
  refine ⟨?_, ?_, ?_, ?_, ?_, ?_, ?_⟩
  · simp [TableQuery.whereBetween, h1, h2]
  · simp [TableQuery.whereBetween, h1, h2]
  · simp [renderCondition, Condition.mkLeaf, jsIdx, String.append_assoc]
  · simp [TableQuery.whereBetween, isJsUndefined]
  · intro h
    cases h with
    | inl h =>
      simp only [List.getD_eq_getElem?_getD] at h
      simp [TableQuery.whereBetween, h]
    | inr h =>
      simp only [List.getD_eq_getElem?_getD] at h
      simp [TableQuery.whereBetween, h]
  · intro h
    simp [TableQuery.whereIn, h]
  · simp [TableQuery.whereIn, isJsArray, jsElems]

/-- Witness for C9 at concrete inputs: the appended BETWEEN node and its
rendering, and the silent no-ops. -/
theorem whereBetween_whereIn_behavior_witness :
    isJsUndefined (JSVal.num 20) = false
  ∧ isJsUndefined (JSVal.num 30) = false
  ∧ ((TableQuery.init "t").whereBetween "age" [.num 20, .num 30]).conditions
        = [Condition.mkLeaf "age" "BETWEEN" (.arr [.num 20, .num 30]) "AND"]
  ∧ renderCondition (Condition.mkLeaf "age" "BETWEEN" (.arr [.num 20, .num 30]) "AND")
        = "age BETWEEN 20 AND 30"
  ∧ (TableQuery.init "t").whereBetween "age" [.num 5] = TableQuery.init "t"
  ∧ (TableQuery.init "t").whereIn "id" (.num 5) = TableQuery.init "t"
  ∧ (TableQuery.init "t").whereIn "id" (.arr []) = TableQuery.init "t" := by
  have thm := whereBetween_whereIn_behavior (TableQuery.init "t") "age" (.num 20) (.num 30)
      rfl rfl [JSVal.num 1] (.num 5)
  exact ⟨rfl, rfl, thm.1, thm.2.2.1, thm.2.2.2.1, thm.2.2.2.2.2.1 rfl, thm.2.2.2.2.2.2⟩

/-- C6 counterexample: `insert` accepts the empty array without raising
(the claim says it raises on an empty list): validation passes and the loop
produces no statements. -/
theorem insert_empty_array_ok : (TableQuery.init "t").insert (.arr []) = .ok [] := rfl

/-- C6 amended: `insert(rows)` raises a descriptive error, before producing
any SQL, when `rows` is not an array or when some element is not a non-null
object; an empty array passes validation and yields no SQL statements. -/
theorem insert_validation (b : TableQuery) (data : JSVal) :
    (isJsArray data = false →
        b.insert data
            = .error "El método insert requiere un array de objetos con pares clave-valor.")
  ∧ (∀ items, data = .arr items →
        (items.all validInsertItem = false →
            b.insert data = .error "El array debe contener solo objetos válidos.")
      ∧ (items.all validInsertItem = true →
            b.insert data = .ok (items.map (insertRowSql b.tableName)))) := by
  constructor
  · intro h
    simp [TableQuery.insert, h]
  · intro items hd
    subst hd
    constructor <;> intro h <;> simp [TableQuery.insert, isJsArray, jsElems, h]

/-- Witness for C6: a non-array payload and a null element raise, a
singleton object row is accepted. -/
theorem insert_validation_witness :
    isJsArray (JSVal.num 1) = false
  ∧ (TableQuery.init "t").insert (.num 1)
      = .error "El método insert requiere un array de objetos con pares clave-valor."
  ∧ (TableQuery.init "t").insert (.arr [JSVal.null])
      = .error "El array debe contener solo objetos válidos."
  ∧ (TableQuery.init "t").insert (.arr [JSVal.obj [("name", JSVal.str "Alice")]])
      = .ok ([JSVal.obj [("name", JSVal.str "Alice")]].map (insertRowSql "t")) :=
  ⟨rfl, (insert_validation (TableQuery.init "t") (.num 1)).1 rfl,
   ((insert_validation (TableQuery.init "t") (.arr [JSVal.null])).2 _ rfl).1 rfl,
   ((insert_validation (TableQuery.init "t") (.arr [JSVal.obj [("name", JSVal.str "Alice")]])).2
      _ rfl).2 rfl⟩

/-- When the execution loop fails, the reported text is the driver's error
for one of the split commands. -/
theorem runCommands_error_mem (pool : Driver) (cmds : List String) (e : String)
    (h : runCommands pool cmds = .error e) :
    ∃ c ∈ cmds, pool (c ++ ";") = .error e := by
  induction cmds with
  | nil => simp [runCommands] at h
  | cons c cs ih =>
    unfold runCommands at h
    cases hp : pool (c ++ ";") with
    | error e2 =>
      rw [hp] at h
      cases h
      exact ⟨c, List.mem_cons_self c cs, hp⟩
    | ok rows =>
      rw [hp] at h
      cases hr : runCommands pool cs with
      | error e2 =>
        rw [hr] at h
        cases h
        obtain ⟨c2, hmem, hc2⟩ := ih hr
        exact ⟨c2, List.mem_cons_of_mem c hmem, hc2⟩
      | ok results =>
        rw [hr] at h
        cases h

/-- C3 counterexample: a driver whose error text is the empty string is a
representable execution error, and there the result's message is the catch
block's fallback text, not the driver's error text — so "message carries
the driver's error text" fails as stated. -/
theorem query_empty_error_message_fallback :
    (Postgres.query (some fun _ => .error "") "SELECT 1").status = "error"
  ∧ (Postgres.query (some fun _ => .error "") "SELECT 1").data = QueryData.nullData
  ∧ (Postgres.query (some fun _ => .error "") "SELECT 1").message
      = "An error occurred while executing the query."
  ∧ (Postgres.query (some fun _ => .error "") "SELECT 1").message ≠ "" :=
  ⟨rfl, rfl, by decide, by decide⟩

/-- C3 amended: for every input string and every driver behaviour, the raw
query entry point resolves to a structured result: on success the status
and message are fixed and `data` is the single row set when exactly one
command ran and the list of row sets otherwise; on any execution error
(missing pool included) the status is `error`, `data` is null, and the
message is `error.message || 'An error occurred while executing the
query.'` — the driver's error text for one of the executed commands when
that text is non-empty, the fallback text when it is empty.  The function
is total, so the call never raises. -/
theorem query_structured_result (pool : Option Driver) (sqlQuery : String) :
    ((Postgres.query pool sqlQuery).status = "success"
      ∧ (Postgres.query pool sqlQuery).message = "Query executed successfully"
      ∧ (∃ p results, pool = some p
          ∧ runCommands p (sqlCommandsOf sqlQuery) = .ok results
          ∧ (Postgres.query pool sqlQuery).data
              = (match results with
                 | [single] => QueryData.rows single
                 | _ => QueryData.rowsets results)))
  ∨ ((Postgres.query pool sqlQuery).status = "error"
      ∧ (Postgres.query pool sqlQuery).data = QueryData.nullData
      ∧ ((pool = none
            ∧ (Postgres.query pool sqlQuery).message
                = "Database connection pool is not available.")
        ∨ (∃ p command e, pool = some p ∧ command ∈ sqlCommandsOf sqlQuery
            ∧ p (command ++ ";") = .error e
            ∧ (Postgres.query pool sqlQuery).message
                = jsOrElse e "An error occurred while executing the query."))) := by
  cases pool with
  | none => exact Or.inr ⟨rfl, rfl, Or.inl ⟨rfl, rfl⟩⟩
  | some p =>
    cases hr : runCommands p (sqlCommandsOf sqlQuery) with
    | ok results =>
      left
      refine ⟨?_, ?_, p, results, rfl, hr, ?_⟩ <;> simp only [Postgres.query, hr]
    | error e =>
      right
      obtain ⟨c, hmem, hc⟩ := runCommands_error_mem p _ e hr
      refine ⟨?_, ?_, Or.inr ⟨p, c, e, rfl, hmem, hc, ?_⟩⟩ <;> simp only [Postgres.query, hr]
